import Mathlib

/-!
# Verification of `core/src/utils.cpp` (moveit_task_constructor)

Shallow embedding of the two functions of `moveit::task_constructor::utils`:

* `getRobotTipForFrame` (utils.cpp, lines 56-104): resolution of the IK frame,
* `markPathCollisions` (utils.cpp, lines 106-129): collision sweep over a trajectory.

Pointers `const LinkModel*` are values of `Option LinkModel` (`none` is `nullptr`).
Reference parameters are passed in and returned explicitly.  The types and
operations that come from MoveIt, Eigen, tf2 and boost (rigid transforms and their
product, the pose message and `tf2::fromMsg`, the robot state queries, the collision
query and the marker conversion) are parameters of the development.
-/

namespace Utils

/-! ## Data model -/

/-- A link of the kinematic model (`moveit::core::LinkModel`), identified by its name. -/
structure LinkModel where
  name : String
  deriving DecidableEq, Repr

/-- The `std_msgs` header of a stamped message; only the frame id is read. -/
structure Header where
  frame_id : String
  deriving DecidableEq, Repr

/-- The message `geometry_msgs::msg::PoseStamped`, over the pose message type `Pose`. -/
structure PoseStamped (Pose : Type) where
  header : Header
  pose : Pose

/-- The content of the `boost::any` returned by `Property::value()`: nothing, a
`PoseStamped`, or a value of some other type. -/
inductive AnyValue (Pose : Type) where
  | empty : AnyValue Pose
  | poseStamped (msg : PoseStamped Pose) : AnyValue Pose
  | otherType : AnyValue Pose

/-- A task property (`Property`); only its value is read. -/
structure Property (Pose : Type) where
  value : AnyValue Pose

/-- What one call `getFrameInfo(frame_id, robot_link, found)` produces: the returned
transform and the values left in the two reference parameters.  At the only call site
the references hold `nullptr` and `false` before the call, so the three values are a
function of the frame id. -/
structure FrameInfo (Iso : Type) where
  ref_frame : Iso
  robot_link : Option LinkModel
  found : Bool

/-- The queries of `moveit::core::RobotState` used by this file. -/
structure RobotState (Iso : Type) where
  getGlobalLinkTransform : LinkModel → Iso
  getFrameInfo : String → FrameInfo Iso

/-- A joint model group; `getEndEffectorTips` is the content of the vector that
`jmg->getEndEffectorTips(tips)` fills. -/
structure JointModelGroup where
  getEndEffectorTips : List (Option LinkModel)

/-- The fields of `collision_detection::CollisionRequest` that matter here. -/
structure CollisionRequest where
  group_name : String
  contacts : Bool
  max_contacts : Nat
  max_contacts_per_pair : Nat
  verbose : Bool
  deriving DecidableEq, Repr

/-- The contact map `CollisionResult::ContactMap`: for a pair of body names, the
contact records of that pair. -/
abbrev ContactMap (Contact : Type) := List ((String × String) × List Contact)

/-- The fields of `collision_detection::CollisionResult` that matter here. -/
structure CollisionResult (Contact : Type) where
  collision : Bool
  contact_count : Nat
  contacts : ContactMap Contact

/-- The queries of `planning_scene::PlanningScene` used by this file.  The result
passed to `checkCollision` is default-constructed before every call, so the result
after the call is a function of the request and the robot state. -/
structure PlanningScene (Iso Contact : Type) where
  getCurrentState : RobotState Iso
  getPlanningFrame : String
  checkCollision : CollisionRequest → RobotState Iso → CollisionResult Contact

/-- A trajectory (`robot_trajectory::RobotTrajectory`): its waypoints in order. -/
structure RobotTrajectory (Iso : Type) where
  waypoints : List (RobotState Iso)

/-- The number of waypoints, `getWayPointCount()`. -/
def RobotTrajectory.getWayPointCount {Iso : Type} (t : RobotTrajectory Iso) : Nat :=
  t.waypoints.length

/-- The waypoint at a valid index, `getWayPoint(index)`. -/
def RobotTrajectory.getWayPoint {Iso : Type} (t : RobotTrajectory Iso) (index : Nat)
    (h : index < t.getWayPointCount) : RobotState Iso :=
  t.waypoints.get ⟨index, h⟩

/-! ## `getRobotTipForFrame` -/

/-- The three reference parameters of `getRobotTipForFrame`. -/
structure Refs (Iso : Type) where
  error_msg : String
  robot_link : Option LinkModel
  tip_in_global_frame : Iso
  deriving DecidableEq

/-- How a call ends: it returns a boolean, or `boost::any_cast` throws. -/
inductive Outcome where
  | returned (value : Bool) : Outcome
  | bad_any_cast : Outcome
  deriving DecidableEq, Repr

/-- The lambda `get_tip` (lines 59-67): the single end-effector tip of the group,
or `nullptr` when the group does not have exactly one. -/
def get_tip (jmg : JointModelGroup) : Option LinkModel :=
  let tips := jmg.getEndEffectorTips
  if h : tips.length ≠ 1 then
    none
  else
    tips.get ⟨0, by omega⟩

/-- The function `getRobotTipForFrame` (lines 56-104).  `fromMsg` is `tf2::fromMsg`
on poses and `*` is the product of `Eigen::Isometry3d`.  `refs` holds the values of
the reference parameters before the call; the result pairs the way the call ends
with their values after it. -/
def getRobotTipForFrame {Pose Iso Contact : Type} [Mul Iso] (fromMsg : Pose → Iso)
    (property : Property Pose) (scene : PlanningScene Iso Contact) (jmg : JointModelGroup)
    (refs : Refs Iso) : Outcome × Refs Iso :=
  -- line 69
  let refs := { refs with error_msg := "" }
  match property.value with
  | .empty =>
    -- lines 72-77
    let refs := { refs with robot_link := get_tip jmg }
    match refs.robot_link with
    | none => (.returned false, { refs with error_msg := "missing ik_frame" })
    | some link =>
      (.returned true,
        { refs with tip_in_global_frame := scene.getCurrentState.getGlobalLinkTransform link })
  | .otherType =>
    -- line 79, the cast throws
    (.bad_any_cast, refs)
  | .poseStamped ik_pose_msg =>
    -- lines 80-84
    let refs := { refs with tip_in_global_frame := fromMsg ik_pose_msg.pose }
    let refs := { refs with robot_link := none }
    let info := scene.getCurrentState.getFrameInfo ik_pose_msg.header.frame_id
    let refs := { refs with robot_link := info.robot_link }
    let found := info.found
    let ref_frame := info.ref_frame
    -- lines 85-90
    if !found && !(ik_pose_msg.header.frame_id == "") then
      (.returned false,
        { refs with
          error_msg := "ik_frame specified in unknown frame '" ++ ik_pose_msg.header.frame_id ++ "'" })
    else
      -- lines 91-92
      let refs := if refs.robot_link.isNone then { refs with robot_link := get_tip jmg } else refs
      -- lines 93-100
      match refs.robot_link with
      | none => (.returned false, { refs with error_msg := "ik_frame doesn't specify a link frame" })
      | some link =>
        let ref_frame :=
          if !found then scene.getCurrentState.getGlobalLinkTransform link else ref_frame
        (.returned true, { refs with tip_in_global_frame := ref_frame * refs.tip_in_global_frame })

/-! ## `markPathCollisions` -/

/-- The state of the sweep: the caller's marker array, and a record of the calls
made so far, in order: the arguments of every `checkCollision` and of every
`getCollisionMarkersFromContacts`. -/
structure Sweep (Iso Contact Marker : Type) where
  markers_out : List Marker
  queries : List (CollisionRequest × RobotState Iso)
  conversions : List (String × ContactMap Contact)

/-- The collision request built at lines 115-120, from a default-constructed
request `c_req`. -/
def collisionRequest (c_req : CollisionRequest) : CollisionRequest :=
  { c_req with contacts := true, max_contacts := 10, max_contacts_per_pair := 3, verbose := true }

/-- The body of the loop (lines 112-127) at the waypoint `robot_state`.
`getCollisionMarkersFromContacts` maps the marker array before the call, the frame id
and the contacts to the marker array after the call. -/
def visitWayPoint {Iso Contact Marker : Type}
    (getCollisionMarkersFromContacts : List Marker → String → ContactMap Contact → List Marker)
    (c_req_default : CollisionRequest) (planning_scene : PlanningScene Iso Contact)
    (s : Sweep Iso Contact Marker) (robot_state : RobotState Iso) : Sweep Iso Contact Marker :=
  let c_req := collisionRequest c_req_default
  -- line 122
  let c_res := planning_scene.checkCollision c_req robot_state
  let s := { s with queries := s.queries ++ [(c_req, robot_state)] }
  -- lines 124-127
  if 0 < c_res.contact_count then
    { s with
      markers_out :=
        getCollisionMarkersFromContacts s.markers_out planning_scene.getPlanningFrame c_res.contacts
      conversions := s.conversions ++ [(planning_scene.getPlanningFrame, c_res.contacts)] }
  else
    s

/-- The loop of line 111, from the index `it` on. -/
def markPathCollisions.loop {Iso Contact Marker : Type}
    (getCollisionMarkersFromContacts : List Marker → String → ContactMap Contact → List Marker)
    (c_req_default : CollisionRequest) (trajectory : RobotTrajectory Iso)
    (planning_scene : PlanningScene Iso Contact) (n_wp : Nat)
    (hn : n_wp = trajectory.getWayPointCount) (it : Nat) (s : Sweep Iso Contact Marker) :
    Sweep Iso Contact Marker :=
  if h : it < n_wp then
    let robot_state := trajectory.getWayPoint it (hn ▸ h)
    markPathCollisions.loop getCollisionMarkersFromContacts c_req_default trajectory
      planning_scene n_wp hn (it + 1)
      (visitWayPoint getCollisionMarkersFromContacts c_req_default planning_scene s robot_state)
  else
    s
termination_by n_wp - it

/-- The function `markPathCollisions` (lines 106-129).  `markers_out` is the marker
array before the call; the result holds the marker array after the call and the
record of the calls made. -/
def markPathCollisions {Iso Contact Marker Constraints : Type}
    (getCollisionMarkersFromContacts : List Marker → String → ContactMap Contact → List Marker)
    (c_req_default : CollisionRequest) (trajectory : RobotTrajectory Iso)
    (planning_scene : PlanningScene Iso Contact) (_path_constraints : Constraints)
    (_group_name : String) (markers_out : List Marker) : Sweep Iso Contact Marker :=
  -- line 110
  let n_wp := trajectory.getWayPointCount
  markPathCollisions.loop getCollisionMarkersFromContacts c_req_default trajectory
    planning_scene n_wp rfl 0 { markers_out := markers_out, queries := [], conversions := [] }

/-- The number of contact records of a contact map. -/
def ContactMap.total {Contact : Type} (m : ContactMap Contact) : Nat :=
  (m.map (fun e => e.2.length)).sum

/-- The number of contact records a contact map holds for the pair `pair`. -/
def ContactMap.pairCount {Contact : Type} (m : ContactMap Contact) (pair : String × String) :
    Nat :=
  ((m.filter (fun e => e.1 = pair)).map (fun e => e.2.length)).sum

/-! ## Concrete collaborators, for evaluating the functions on examples -/

namespace Concrete

/-- A pose message with integer coordinates: position and orientation quaternion. -/
structure Pose where
  px : Int
  py : Int
  pz : Int
  qx : Int
  qy : Int
  qz : Int
  qw : Int
  deriving DecidableEq, Repr

/-- A rigid transform with integer entries: the rows of the rotation matrix, each
followed by the coordinate of the translation. -/
structure Isometry3d where
  xx : Int
  xy : Int
  xz : Int
  tx : Int
  yx : Int
  yy : Int
  yz : Int
  ty : Int
  zx : Int
  zy : Int
  zz : Int
  tz : Int
  deriving DecidableEq, Repr

/-- The product of two transforms (product of the homogeneous matrices). -/
def Isometry3d.mul (a b : Isometry3d) : Isometry3d where
  xx := a.xx * b.xx + a.xy * b.yx + a.xz * b.zx
  xy := a.xx * b.xy + a.xy * b.yy + a.xz * b.zy
  xz := a.xx * b.xz + a.xy * b.yz + a.xz * b.zz
  tx := a.xx * b.tx + a.xy * b.ty + a.xz * b.tz + a.tx
  yx := a.yx * b.xx + a.yy * b.yx + a.yz * b.zx
  yy := a.yx * b.xy + a.yy * b.yy + a.yz * b.zy
  yz := a.yx * b.xz + a.yy * b.yz + a.yz * b.zz
  ty := a.yx * b.tx + a.yy * b.ty + a.yz * b.tz + a.ty
  zx := a.zx * b.xx + a.zy * b.yx + a.zz * b.zx
  zy := a.zx * b.xy + a.zy * b.yy + a.zz * b.zy
  zz := a.zx * b.xz + a.zy * b.yz + a.zz * b.zz
  tz := a.zx * b.tx + a.zy * b.ty + a.zz * b.tz + a.tz

instance : Mul Isometry3d := ⟨Isometry3d.mul⟩

/-- The translation by `(x, y, z)`, with identity rotation. -/
def translation (x y z : Int) : Isometry3d :=
  { xx := 1, xy := 0, xz := 0, tx := x
    yx := 0, yy := 1, yz := 0, ty := y
    zx := 0, zy := 0, zz := 1, tz := z }

/-- The identity transform. -/
def identity : Isometry3d := translation 0 0 0

/-- The transform of a pose message: translation by the position, after the rotation
of the orientation quaternion. -/
def fromMsg (p : Pose) : Isometry3d :=
  { xx := 1 - 2 * (p.qy * p.qy + p.qz * p.qz)
    xy := 2 * (p.qx * p.qy - p.qw * p.qz)
    xz := 2 * (p.qx * p.qz + p.qw * p.qy)
    tx := p.px
    yx := 2 * (p.qx * p.qy + p.qw * p.qz)
    yy := 1 - 2 * (p.qx * p.qx + p.qz * p.qz)
    yz := 2 * (p.qy * p.qz - p.qw * p.qx)
    ty := p.py
    zx := 2 * (p.qx * p.qz - p.qw * p.qy)
    zy := 2 * (p.qy * p.qz + p.qw * p.qx)
    zz := 1 - 2 * (p.qx * p.qx + p.qy * p.qy)
    tz := p.pz }

/-- The pose at position `(x, y, z)` with the identity orientation. -/
def poseAt (x y z : Int) : Pose :=
  { px := x, py := y, pz := z, qx := 0, qy := 0, qz := 0, qw := 1 }

/-- The link `base_link`. -/
def base_link : LinkModel := ⟨"base_link"⟩

/-- The link `wrist_link`. -/
def wrist_link : LinkModel := ⟨"wrist_link"⟩

/-- The link `elbow_link`. -/
def elbow_link : LinkModel := ⟨"elbow_link"⟩

/-- A robot state: `base_link` sits at the origin, `wrist_link` at `(0, 0, height)`
and every other link at `(0, height, 0)`; the frame `base_link` is known, with the
identity transform, and the lookup of any other frame id produces `other`. -/
def robotState (height : Int) (other : FrameInfo Isometry3d) : RobotState Isometry3d where
  getGlobalLinkTransform := fun link =>
    if link = base_link then identity
    else if link = wrist_link then translation 0 0 height
    else translation 0 height 0
  getFrameInfo := fun frame_id =>
    if frame_id = "base_link" then ⟨identity, some base_link, true⟩ else other

/-- A scene in the state `robotState height other`, whose collision query reports
nothing. -/
def scene (height : Int) (other : FrameInfo Isometry3d) : PlanningScene Isometry3d Nat where
  getCurrentState := robotState height other
  getPlanningFrame := "world"
  checkCollision := fun _ _ => ⟨false, 0, []⟩

/-- A lookup that reports not-found, with no link, and returns the translation by
`(7, 7, 7)`. -/
def notFound : FrameInfo Isometry3d := ⟨translation 7 7 7, none, false⟩

/-- A group whose only end-effector tip is `wrist_link`. -/
def oneTip : JointModelGroup := ⟨[some wrist_link]⟩

/-- A group with the two end-effector tips `wrist_link` and `elbow_link`. -/
def twoTips : JointModelGroup := ⟨[some wrist_link, some elbow_link]⟩

/-- The values of the reference parameters before a call: a message left over from
an earlier call, the link `elbow_link` and the translation by `(5, 5, 5)`. -/
def refsBefore : Refs Isometry3d := ⟨"stale", some elbow_link, translation 5 5 5⟩

/-- The property holding the pose at `(1, 0, 0)`, identity orientation, in the frame
`frame_id`. -/
def poseProperty (frame_id : String) : Property Pose :=
  ⟨.poseStamped ⟨⟨frame_id⟩, poseAt 1 0 0⟩⟩

/-- A default-constructed collision request: no group, no contacts wanted, one
contact at most. -/
def defaultRequest : CollisionRequest := ⟨"", false, 1, 1, false⟩

/-- A marker: the frame id it is anchored in and the contact record it shows.
Contact records are numbers. -/
abbrev Marker := String × Nat

/-- One marker per contact record, in the order of the contact map. -/
def contactMarkers (frame_id : String) (contacts : ContactMap Nat) : List Marker :=
  contacts.flatMap (fun e => e.2.map (fun c => (frame_id, c)))

/-- A marker conversion that appends one marker per contact record. -/
def appendContactMarkers (markers : List Marker) (frame_id : String)
    (contacts : ContactMap Nat) : List Marker :=
  markers ++ contactMarkers frame_id contacts

/-- The waypoint in which `wrist_link` sits at `(0, 0, height)`. -/
def waypoint (height : Int) : RobotState Isometry3d := robotState height notFound

/-- A trajectory of three waypoints, with `wrist_link` at the heights 0, 1 and 2. -/
def trajectory3 : RobotTrajectory Isometry3d := ⟨[waypoint 0, waypoint 1, waypoint 2]⟩

/-- The pair of bodies in contact in the examples. -/
def wristTable : String × String := ("wrist_link", "table")

/-- A scene whose collision query answers `result` for a state with `wrist_link` at
`(0, 0, 1)`, whatever the request, and reports nothing for any other state. -/
def sceneWith (result : CollisionResult Nat) : PlanningScene Isometry3d Nat where
  getCurrentState := waypoint 0
  getPlanningFrame := "world"
  checkCollision := fun _ robot_state =>
    if robot_state.getGlobalLinkTransform wrist_link = translation 0 0 1 then result
    else ⟨false, 0, []⟩

/-- The number of contacts there really are in a state: four between `wrist_link` at
`(0, 0, 1)` and the table, none otherwise. -/
def actualContacts (robot_state : RobotState Isometry3d) : Nat :=
  if robot_state.getGlobalLinkTransform wrist_link = translation 0 0 1 then 4 else 0

/-- A scene whose collision query honours the caps of the request: of the four
contacts between `wrist_link` at `(0, 0, 1)` and the table it reports the first ones,
as many as both caps allow, and only when contacts are asked for. -/
def cappingScene : PlanningScene Isometry3d Nat where
  getCurrentState := waypoint 0
  getPlanningFrame := "world"
  checkCollision := fun c_req robot_state =>
    if robot_state.getGlobalLinkTransform wrist_link = translation 0 0 1 ∧ c_req.contacts = true then
      ⟨true, min (min c_req.max_contacts c_req.max_contacts_per_pair) 4,
        [(wristTable,
          [101, 102, 103, 104].take (min c_req.max_contacts c_req.max_contacts_per_pair))]⟩
    else ⟨false, 0, []⟩

end Concrete

/-! ## Theorems on `getRobotTipForFrame` -/

/-- C1: for every scene, every chain and every property holding the local pose `P`
in a non-empty frame id `F`, if the frame lookup on `F` reports found and yields the
link `L` with the transform `T_F`, then the call returns true with `robot_link = L`
and `tip_in_global_frame = T_F * P` (and an empty error message). -/
theorem getRobotTipForFrame_known_frame {Pose Iso Contact : Type} [Mul Iso]
    (fromMsg : Pose → Iso) (property : Property Pose) (scene : PlanningScene Iso Contact)
    (jmg : JointModelGroup) (refs : Refs Iso) (F : String) (pose : Pose) (L : LinkModel)
    (T_F : Iso) (hprop : property.value = .poseStamped ⟨⟨F⟩, pose⟩) (_hF : F ≠ "")
    (hlookup : scene.getCurrentState.getFrameInfo F = ⟨T_F, some L, true⟩) :
    getRobotTipForFrame fromMsg property scene jmg refs =
      (.returned true, ⟨"", some L, T_F * fromMsg pose⟩) := by
  simp [getRobotTipForFrame, hprop, hlookup]

/-- Scenario B: the pose at `(1, 0, 0)` with identity rotation in the known frame
`base_link`, whose transform is the identity, resolves to `base_link` and the
translation by `(1, 0, 0)`. -/
theorem getRobotTipForFrame_known_frame_witness :
    getRobotTipForFrame Concrete.fromMsg (Concrete.poseProperty "base_link")
        (Concrete.scene 3 Concrete.notFound) Concrete.twoTips Concrete.refsBefore =
      (.returned true, ⟨"", some Concrete.base_link, Concrete.translation 1 0 0⟩) :=
  getRobotTipForFrame_known_frame Concrete.fromMsg (Concrete.poseProperty "base_link")
    (Concrete.scene 3 Concrete.notFound) Concrete.twoTips Concrete.refsBefore "base_link"
    (Concrete.poseAt 1 0 0) Concrete.base_link Concrete.identity rfl (by decide) rfl

/-- C2: for every scene and every chain with exactly one end-effector tip link, the
call with an empty property returns true, sets `robot_link` to that tip link and
`tip_in_global_frame` to the global transform of that link in the current state of
the scene, with no further composition. -/
theorem getRobotTipForFrame_empty_single_tip {Pose Iso Contact : Type} [Mul Iso]
    (fromMsg : Pose → Iso) (property : Property Pose) (scene : PlanningScene Iso Contact)
    (jmg : JointModelGroup) (refs : Refs Iso) (tip : LinkModel)
    (hprop : property.value = .empty) (htips : jmg.getEndEffectorTips = [some tip]) :
    getRobotTipForFrame fromMsg property scene jmg refs =
      (.returned true, ⟨"", some tip, scene.getCurrentState.getGlobalLinkTransform tip⟩) := by
  simp [getRobotTipForFrame, hprop, get_tip, htips]

/-- Scenario A: with the tips `{wrist_link}` and an empty property the call yields
`wrist_link` and its global transform in the current state. -/
theorem getRobotTipForFrame_empty_single_tip_witness :
    getRobotTipForFrame Concrete.fromMsg ⟨.empty⟩ (Concrete.scene 3 Concrete.notFound) Concrete.oneTip
        Concrete.refsBefore =
      (.returned true, ⟨"", some Concrete.wrist_link,
        (Concrete.scene 3 Concrete.notFound).getCurrentState.getGlobalLinkTransform Concrete.wrist_link⟩) :=
  getRobotTipForFrame_empty_single_tip Concrete.fromMsg ⟨.empty⟩ (Concrete.scene 3 Concrete.notFound)
    Concrete.oneTip Concrete.refsBefore Concrete.wrist_link rfl rfl

/-- C3: for every scene and every chain whose number of end-effector tip links is 0
or at least 2, the call with an empty property returns false and sets the error
message to exactly `missing ik_frame`. -/
theorem getRobotTipForFrame_empty_no_single_tip {Pose Iso Contact : Type} [Mul Iso]
    (fromMsg : Pose → Iso) (property : Property Pose) (scene : PlanningScene Iso Contact)
    (jmg : JointModelGroup) (refs : Refs Iso) (hprop : property.value = .empty)
    (htips : jmg.getEndEffectorTips.length = 0 ∨ 2 ≤ jmg.getEndEffectorTips.length) :
    (getRobotTipForFrame fromMsg property scene jmg refs).1 = .returned false ∧
      (getRobotTipForFrame fromMsg property scene jmg refs).2.error_msg = "missing ik_frame" := by
  have hne : jmg.getEndEffectorTips.length ≠ 1 := by omega
  simp [getRobotTipForFrame, hprop, get_tip, hne]

/-- With two tips and an empty property the call fails with `missing ik_frame`. -/
theorem getRobotTipForFrame_empty_no_single_tip_witness :
    (getRobotTipForFrame Concrete.fromMsg ⟨.empty⟩ (Concrete.scene 3 Concrete.notFound)
        Concrete.twoTips Concrete.refsBefore).1 = .returned false ∧
      (getRobotTipForFrame Concrete.fromMsg ⟨.empty⟩ (Concrete.scene 3 Concrete.notFound)
        Concrete.twoTips Concrete.refsBefore).2.error_msg = "missing ik_frame" :=
  getRobotTipForFrame_empty_no_single_tip Concrete.fromMsg ⟨.empty⟩
    (Concrete.scene 3 Concrete.notFound) Concrete.twoTips Concrete.refsBefore rfl
    (Or.inr (by decide))

/-- C4: for every property holding a pose in a non-empty frame id `F`, if the frame
lookup on `F` reports not-found, then the call returns false and the error message is
`ik_frame specified in unknown frame 'F'`, which contains `F`; this for every chain
and whatever link and transform the lookup produced. -/
theorem getRobotTipForFrame_unknown_frame {Pose Iso Contact : Type} [Mul Iso]
    (fromMsg : Pose → Iso) (property : Property Pose) (scene : PlanningScene Iso Contact)
    (jmg : JointModelGroup) (refs : Refs Iso) (F : String) (pose : Pose)
    (hprop : property.value = .poseStamped ⟨⟨F⟩, pose⟩) (hF : F ≠ "")
    (hlookup : (scene.getCurrentState.getFrameInfo F).found = false) :
    (getRobotTipForFrame fromMsg property scene jmg refs).1 = .returned false ∧
      (getRobotTipForFrame fromMsg property scene jmg refs).2.error_msg =
        "ik_frame specified in unknown frame '" ++ F ++ "'" ∧
      List.IsInfix F.data
        (getRobotTipForFrame fromMsg property scene jmg refs).2.error_msg.data := by
  have hres : getRobotTipForFrame fromMsg property scene jmg refs =
      (.returned false,
        ⟨"ik_frame specified in unknown frame '" ++ F ++ "'",
          (scene.getCurrentState.getFrameInfo F).robot_link, fromMsg pose⟩) := by
    simp [getRobotTipForFrame, hprop, hlookup, hF]
  rw [hres]
  refine ⟨rfl, rfl, ?_⟩
  exact ⟨"ik_frame specified in unknown frame '".data, "'".data, by simp [String.data_append]⟩

/-- The unknown frame `tool0`, for a chain with exactly one tip link and a lookup that
leaves a link in its output, is reported by name. -/
theorem getRobotTipForFrame_unknown_frame_witness :
    (getRobotTipForFrame Concrete.fromMsg (Concrete.poseProperty "tool0")
        (Concrete.scene 3 ⟨Concrete.identity, some Concrete.elbow_link, false⟩)
        Concrete.oneTip Concrete.refsBefore).1 = .returned false ∧
      (getRobotTipForFrame Concrete.fromMsg (Concrete.poseProperty "tool0")
        (Concrete.scene 3 ⟨Concrete.identity, some Concrete.elbow_link, false⟩)
        Concrete.oneTip Concrete.refsBefore).2.error_msg =
        "ik_frame specified in unknown frame '" ++ "tool0" ++ "'" ∧
      List.IsInfix "tool0".data
        (getRobotTipForFrame Concrete.fromMsg (Concrete.poseProperty "tool0")
          (Concrete.scene 3 ⟨Concrete.identity, some Concrete.elbow_link, false⟩)
          Concrete.oneTip Concrete.refsBefore).2.error_msg.data :=
  getRobotTipForFrame_unknown_frame Concrete.fromMsg (Concrete.poseProperty "tool0")
    (Concrete.scene 3 ⟨Concrete.identity, some Concrete.elbow_link, false⟩)
    Concrete.oneTip Concrete.refsBefore "tool0" (Concrete.poseAt 1 0 0) rfl (by decide) rfl

/-- C5, as stated, fails: with the empty frame id and the single tip `wrist_link`,
a lookup that reports found with no link makes the call return the transform of the
lookup composed with the pose, `(8, 7, 7)`, where the claim has the transform of the
tip composed with the pose, `(1, 0, 3)`; and a lookup that reports not-found but
leaves `elbow_link` in its link output makes the call return `elbow_link`, not the
tip. -/
theorem getRobotTipForFrame_empty_frame_id_counterexample :
    getRobotTipForFrame Concrete.fromMsg (Concrete.poseProperty "")
        (Concrete.scene 3 ⟨Concrete.translation 7 7 7, none, true⟩) Concrete.oneTip
        Concrete.refsBefore =
      (.returned true, ⟨"", some Concrete.wrist_link, Concrete.translation 8 7 7⟩) ∧
    (Concrete.scene 3 ⟨Concrete.translation 7 7 7, none, true⟩).getCurrentState.getGlobalLinkTransform
        Concrete.wrist_link * Concrete.fromMsg (Concrete.poseAt 1 0 0) =
      Concrete.translation 1 0 3 ∧
    Concrete.translation 8 7 7 ≠ Concrete.translation 1 0 3 ∧
    getRobotTipForFrame Concrete.fromMsg (Concrete.poseProperty "")
        (Concrete.scene 3 ⟨Concrete.translation 7 7 7, some Concrete.elbow_link, false⟩)
        Concrete.oneTip Concrete.refsBefore =
      (.returned true, ⟨"", some Concrete.elbow_link, Concrete.translation 1 3 0⟩) ∧
    Concrete.elbow_link ≠ Concrete.wrist_link := by
  refine ⟨rfl, rfl, by decide, rfl, by decide⟩

/-- C5, amended: for every property holding the local pose `P` in the empty frame id
and every chain with exactly one tip link, if the frame lookup on the empty frame id
reports not-found and yields no link, then the call returns true with `robot_link`
the single tip link of the chain and `tip_in_global_frame` the global transform of
that link composed with `P`, whatever transform the lookup returned. -/
theorem getRobotTipForFrame_empty_frame_id {Pose Iso Contact : Type} [Mul Iso]
    (fromMsg : Pose → Iso) (property : Property Pose) (scene : PlanningScene Iso Contact)
    (jmg : JointModelGroup) (refs : Refs Iso) (pose : Pose) (tip : LinkModel) (T : Iso)
    (hprop : property.value = .poseStamped ⟨⟨""⟩, pose⟩)
    (htips : jmg.getEndEffectorTips = [some tip])
    (hlookup : scene.getCurrentState.getFrameInfo "" = ⟨T, none, false⟩) :
    getRobotTipForFrame fromMsg property scene jmg refs =
      (.returned true,
        ⟨"", some tip, scene.getCurrentState.getGlobalLinkTransform tip * fromMsg pose⟩) := by
  simp [getRobotTipForFrame, hprop, hlookup, get_tip, htips]

/-- The pose at `(1, 0, 0)` in the empty frame id, with the single tip `wrist_link`
at `(0, 0, 3)`, resolves to `wrist_link` and the translation by `(1, 0, 3)`; the
translation by `(7, 7, 7)` returned by the lookup plays no role. -/
theorem getRobotTipForFrame_empty_frame_id_witness :
    getRobotTipForFrame Concrete.fromMsg (Concrete.poseProperty "")
        (Concrete.scene 3 Concrete.notFound) Concrete.oneTip Concrete.refsBefore =
      (.returned true, ⟨"", some Concrete.wrist_link, Concrete.translation 1 0 3⟩) :=
  getRobotTipForFrame_empty_frame_id Concrete.fromMsg (Concrete.poseProperty "")
    (Concrete.scene 3 Concrete.notFound) Concrete.oneTip Concrete.refsBefore
    (Concrete.poseAt 1 0 0) Concrete.wrist_link (Concrete.translation 7 7 7) rfl rfl rfl

/-- C10, as stated, fails: called with the outputs holding `elbow_link` and the
translation by `(5, 5, 5)`, the call that fails on an empty property leaves the null
link in `robot_link`, and the call that fails on the unknown frame `tool0` leaves the
null link in `robot_link` and the pose of the property in `tip_in_global_frame`. -/
theorem getRobotTipForFrame_failure_counterexample :
    Concrete.refsBefore.robot_link = some Concrete.elbow_link ∧
    Concrete.refsBefore.tip_in_global_frame = Concrete.translation 5 5 5 ∧
    getRobotTipForFrame Concrete.fromMsg ⟨.empty⟩ (Concrete.scene 3 Concrete.notFound)
        Concrete.twoTips Concrete.refsBefore =
      (.returned false, ⟨"missing ik_frame", none, Concrete.translation 5 5 5⟩) ∧
    getRobotTipForFrame Concrete.fromMsg (Concrete.poseProperty "tool0")
        (Concrete.scene 3 Concrete.notFound) Concrete.twoTips Concrete.refsBefore =
      (.returned false,
        ⟨"ik_frame specified in unknown frame 'tool0'", none, Concrete.translation 1 0 0⟩) ∧
    (none : Option LinkModel) ≠ some Concrete.elbow_link ∧
    Concrete.translation 1 0 0 ≠ Concrete.translation 5 5 5 := by
  refine ⟨rfl, rfl, rfl, ?_, by decide, by decide⟩
  decide

/-- C10, amended: when the call returns false it produces the failure result and an
error message and also overwrites the outputs.  For an empty property the message is
`missing ik_frame`, `robot_link` is null and `tip_in_global_frame` keeps the value it
had before the call.  For a property holding a pose the message is one of the two
other failure messages, `robot_link` holds the link output of the frame lookup and
`tip_in_global_frame` holds the local pose of the property. -/
theorem getRobotTipForFrame_failure_outputs {Pose Iso Contact : Type} [Mul Iso]
    (fromMsg : Pose → Iso) (property : Property Pose) (scene : PlanningScene Iso Contact)
    (jmg : JointModelGroup) (refs : Refs Iso)
    (hfail : (getRobotTipForFrame fromMsg property scene jmg refs).1 = .returned false) :
    (property.value = .empty ∧
      (getRobotTipForFrame fromMsg property scene jmg refs).2 =
        ⟨"missing ik_frame", none, refs.tip_in_global_frame⟩) ∨
    (∃ msg : PoseStamped Pose, property.value = .poseStamped msg ∧
      ((getRobotTipForFrame fromMsg property scene jmg refs).2.error_msg =
          "ik_frame specified in unknown frame '" ++ msg.header.frame_id ++ "'" ∨
        (getRobotTipForFrame fromMsg property scene jmg refs).2.error_msg =
          "ik_frame doesn't specify a link frame") ∧
      (getRobotTipForFrame fromMsg property scene jmg refs).2.robot_link =
        (scene.getCurrentState.getFrameInfo msg.header.frame_id).robot_link ∧
      (getRobotTipForFrame fromMsg property scene jmg refs).2.tip_in_global_frame =
        fromMsg msg.pose) := by
  obtain ⟨value⟩ := property
  cases value with
  | empty =>
    left
    cases htip : get_tip jmg with
    | none => simp [getRobotTipForFrame, htip]
    | some link => simp [getRobotTipForFrame, htip] at hfail
  | otherType => simp [getRobotTipForFrame] at hfail
  | poseStamped msg =>
    right
    refine ⟨msg, rfl, ?_⟩
    by_cases hunknown :
        ((!(scene.getCurrentState.getFrameInfo msg.header.frame_id).found &&
          !(msg.header.frame_id == "")) = true)
    · simp [getRobotTipForFrame, hunknown]
    · simp only [getRobotTipForFrame, hunknown] at hfail ⊢
      cases hlink : (scene.getCurrentState.getFrameInfo msg.header.frame_id).robot_link with
      | some link => simp [hlink] at hfail
      | none =>
        cases htip : get_tip jmg with
        | none => simp [hlink, htip]
        | some link => simp [hlink, htip] at hfail

/-- The failing call on an empty property with two tips: the message is set, the
link `elbow_link` held by `robot_link` before the call is replaced by null and the
transform is kept. -/
theorem getRobotTipForFrame_failure_outputs_witness :
    ((⟨.empty⟩ : Property Concrete.Pose).value = .empty ∧
      (getRobotTipForFrame Concrete.fromMsg ⟨.empty⟩ (Concrete.scene 3 Concrete.notFound)
          Concrete.twoTips Concrete.refsBefore).2 =
        ⟨"missing ik_frame", none, Concrete.refsBefore.tip_in_global_frame⟩) ∨
    (∃ msg : PoseStamped Concrete.Pose,
      (⟨.empty⟩ : Property Concrete.Pose).value = .poseStamped msg ∧
      ((getRobotTipForFrame Concrete.fromMsg ⟨.empty⟩ (Concrete.scene 3 Concrete.notFound)
            Concrete.twoTips Concrete.refsBefore).2.error_msg =
          "ik_frame specified in unknown frame '" ++ msg.header.frame_id ++ "'" ∨
        (getRobotTipForFrame Concrete.fromMsg ⟨.empty⟩ (Concrete.scene 3 Concrete.notFound)
            Concrete.twoTips Concrete.refsBefore).2.error_msg =
          "ik_frame doesn't specify a link frame") ∧
      (getRobotTipForFrame Concrete.fromMsg ⟨.empty⟩ (Concrete.scene 3 Concrete.notFound)
          Concrete.twoTips Concrete.refsBefore).2.robot_link =
        ((Concrete.scene 3 Concrete.notFound).getCurrentState.getFrameInfo
          msg.header.frame_id).robot_link ∧
      (getRobotTipForFrame Concrete.fromMsg ⟨.empty⟩ (Concrete.scene 3 Concrete.notFound)
          Concrete.twoTips Concrete.refsBefore).2.tip_in_global_frame =
        Concrete.fromMsg msg.pose) :=
  getRobotTipForFrame_failure_outputs Concrete.fromMsg ⟨.empty⟩
    (Concrete.scene 3 Concrete.notFound) Concrete.twoTips Concrete.refsBefore rfl

/-! ## The sweep as a fold over the waypoints -/

section Sweep

variable {Iso Contact Marker Constraints : Type}
variable (conv : List Marker → String → ContactMap Contact → List Marker)
variable (c_req_default : CollisionRequest)
variable (planning_scene : PlanningScene Iso Contact)

/-- The index loop visits the waypoints from `it` on, one after the other. -/
theorem markPathCollisions.loop_eq_foldl (trajectory : RobotTrajectory Iso) (n_wp : Nat)
    (hn : n_wp = trajectory.getWayPointCount) (it : Nat) (s : Sweep Iso Contact Marker) :
    markPathCollisions.loop conv c_req_default trajectory planning_scene n_wp hn it s =
      (trajectory.waypoints.drop it).foldl (visitWayPoint conv c_req_default planning_scene) s := by
  generalize hk : n_wp - it = k
  induction k generalizing it s with
  | zero =>
    have hge : trajectory.waypoints.length ≤ it := by
      have := hn
      simp only [RobotTrajectory.getWayPointCount] at this
      omega
    have hlt : ¬ it < n_wp := by omega
    rw [markPathCollisions.loop, dif_neg hlt, List.drop_eq_nil_of_le hge]
    rfl
  | succ k ih =>
    have hlt : it < n_wp := by omega
    have hlen : it < trajectory.waypoints.length := by
      have := hn
      simp only [RobotTrajectory.getWayPointCount] at this
      omega
    rw [markPathCollisions.loop, dif_pos hlt, ih (it + 1) _ (by omega),
      List.drop_eq_getElem_cons hlen]
    rfl

/-- The whole sweep is the fold of the loop body over the waypoints. -/
theorem markPathCollisions_eq_foldl (trajectory : RobotTrajectory Iso)
    (path_constraints : Constraints) (group_name : String) (markers_out : List Marker) :
    markPathCollisions conv c_req_default trajectory planning_scene path_constraints
        group_name markers_out =
      trajectory.waypoints.foldl (visitWayPoint conv c_req_default planning_scene)
        { markers_out := markers_out, queries := [], conversions := [] } := by
  rw [markPathCollisions, markPathCollisions.loop_eq_foldl, List.drop_zero]

/-- The queries recorded by a fold of the loop body. -/
theorem foldl_visitWayPoint_queries (l : List (RobotState Iso)) (s : Sweep Iso Contact Marker) :
    (l.foldl (visitWayPoint conv c_req_default planning_scene) s).queries =
      s.queries ++ l.map (fun st => (collisionRequest c_req_default, st)) := by
  induction l generalizing s with
  | nil => simp
  | cons st l ih =>
    rw [List.foldl_cons, ih]
    by_cases hc : 0 < (planning_scene.checkCollision (collisionRequest c_req_default) st).contact_count
      <;> simp [visitWayPoint, hc]

/-- The marker conversions recorded by a fold of the loop body. -/
theorem foldl_visitWayPoint_conversions (l : List (RobotState Iso))
    (s : Sweep Iso Contact Marker) :
    (l.foldl (visitWayPoint conv c_req_default planning_scene) s).conversions =
      s.conversions ++
        ((l.map (planning_scene.checkCollision (collisionRequest c_req_default))).filter
          (fun c_res => decide (0 < c_res.contact_count))).map
          (fun c_res => (planning_scene.getPlanningFrame, c_res.contacts)) := by
  induction l generalizing s with
  | nil => simp
  | cons st l ih =>
    rw [List.foldl_cons, ih]
    by_cases hc : 0 < (planning_scene.checkCollision (collisionRequest c_req_default) st).contact_count
      <;> simp [visitWayPoint, hc]

/-- The markers after a fold of the loop body, for an append-only conversion. -/
theorem foldl_visitWayPoint_markers (markers : String → ContactMap Contact → List Marker)
    (happend : ∀ m frame contacts, conv m frame contacts = m ++ markers frame contacts)
    (l : List (RobotState Iso)) (s : Sweep Iso Contact Marker) :
    (l.foldl (visitWayPoint conv c_req_default planning_scene) s).markers_out =
      s.markers_out ++
        ((l.map (planning_scene.checkCollision (collisionRequest c_req_default))).filter
          (fun c_res => decide (0 < c_res.contact_count))).flatMap
          (fun c_res => markers planning_scene.getPlanningFrame c_res.contacts) := by
  induction l generalizing s with
  | nil => simp
  | cons st l ih =>
    rw [List.foldl_cons, ih]
    by_cases hc : 0 < (planning_scene.checkCollision (collisionRequest c_req_default) st).contact_count
      <;> simp [visitWayPoint, hc, happend]

/-- A fold of the loop body over states whose queries all report no contact leaves
the markers and the recorded conversions as they were. -/
theorem foldl_visitWayPoint_no_contacts (l : List (RobotState Iso))
    (hzero : ∀ robot_state ∈ l,
      (planning_scene.checkCollision (collisionRequest c_req_default)
        robot_state).contact_count = 0)
    (s : Sweep Iso Contact Marker) :
    (l.foldl (visitWayPoint conv c_req_default planning_scene) s).markers_out = s.markers_out ∧
      (l.foldl (visitWayPoint conv c_req_default planning_scene) s).conversions =
        s.conversions := by
  induction l generalizing s with
  | nil => exact ⟨rfl, rfl⟩
  | cons st l ih =>
    have h0 := hzero st (List.mem_cons_self st l)
    rw [List.foldl_cons]
    obtain ⟨hm, hc⟩ := ih (fun x hx => hzero x (List.mem_cons_of_mem st hx))
      (visitWayPoint conv c_req_default planning_scene s st)
    rw [hm, hc]
    simp [visitWayPoint, h0]

end Sweep

/-! ## Theorems on `markPathCollisions` -/

/-- C6: for every trajectory with `N` waypoints the sweep issues exactly `N` collision
queries, and the `i`-th query is made with the state of waypoint `i`: the queried
states are the waypoints of the trajectory, in index order, none skipped and none
queried twice, whatever the queries answer. -/
theorem markPathCollisions_queries {Iso Contact Marker Constraints : Type}
    (conv : List Marker → String → ContactMap Contact → List Marker)
    (c_req_default : CollisionRequest) (trajectory : RobotTrajectory Iso)
    (planning_scene : PlanningScene Iso Contact) (path_constraints : Constraints)
    (group_name : String) (markers_out : List Marker) :
    (markPathCollisions conv c_req_default trajectory planning_scene path_constraints
        group_name markers_out).queries.length = trajectory.getWayPointCount ∧
    (markPathCollisions conv c_req_default trajectory planning_scene path_constraints
        group_name markers_out).queries.map Prod.snd = trajectory.waypoints ∧
    ∀ (i : Nat) (h : i < trajectory.getWayPointCount),
      (markPathCollisions conv c_req_default trajectory planning_scene path_constraints
          group_name markers_out).queries[i]? =
        some (collisionRequest c_req_default, trajectory.getWayPoint i h) := by
  rw [markPathCollisions_eq_foldl, foldl_visitWayPoint_queries]
  refine ⟨by simp [RobotTrajectory.getWayPointCount], by simp [Function.comp_def], ?_⟩
  intro i h
  have hi : i < trajectory.waypoints.length := h
  simp [RobotTrajectory.getWayPoint, List.getElem?_eq_getElem hi]

/-- C7: for every trajectory and every initial marker array `M0`, with a marker
conversion that appends `markers frame contacts` to the array, the array after the
sweep is `M0` followed by the markers of the contacts of the waypoints whose query
reports `contact_count > 0`, taken in index order; in particular `M0` is kept as a
prefix. -/
theorem markPathCollisions_markers {Iso Contact Marker Constraints : Type}
    (conv : List Marker → String → ContactMap Contact → List Marker)
    (markers : String → ContactMap Contact → List Marker)
    (c_req_default : CollisionRequest) (trajectory : RobotTrajectory Iso)
    (planning_scene : PlanningScene Iso Contact) (path_constraints : Constraints)
    (group_name : String) (M0 : List Marker)
    (happend : ∀ m frame contacts, conv m frame contacts = m ++ markers frame contacts) :
    (markPathCollisions conv c_req_default trajectory planning_scene path_constraints
        group_name M0).markers_out =
      M0 ++
        ((trajectory.waypoints.map
            (planning_scene.checkCollision (collisionRequest c_req_default))).filter
          (fun c_res => decide (0 < c_res.contact_count))).flatMap
          (fun c_res => markers planning_scene.getPlanningFrame c_res.contacts) ∧
    List.IsPrefix M0
      (markPathCollisions conv c_req_default trajectory planning_scene path_constraints
        group_name M0).markers_out := by
  rw [markPathCollisions_eq_foldl,
    foldl_visitWayPoint_markers conv c_req_default planning_scene markers happend]
  exact ⟨rfl, List.prefix_append _ _⟩

/-- Scenario C: of three waypoints only the one of index 1 collides, with two contact
points, and the conversion yields one marker per contact point: the sweep appends
exactly the two markers of that waypoint to the array. -/
theorem markPathCollisions_markers_witness :
    (markPathCollisions Concrete.appendContactMarkers Concrete.defaultRequest
        Concrete.trajectory3
        (Concrete.sceneWith ⟨true, 2, [(Concrete.wristTable, [101, 102])]⟩) () "arm"
        [("world", 7)]).markers_out =
      [("world", 7)] ++ [("world", 101), ("world", 102)] :=
  (markPathCollisions_markers Concrete.appendContactMarkers Concrete.contactMarkers
    Concrete.defaultRequest Concrete.trajectory3
    (Concrete.sceneWith ⟨true, 2, [(Concrete.wristTable, [101, 102])]⟩) () "arm"
    [("world", 7)] (fun _ _ _ => rfl)).1

/-- C8: for every trajectory, the empty one included, and every initial marker array,
if the query of every waypoint reports `contact_count = 0` then the sweep leaves the
marker array as it was and never calls the marker conversion, whatever the contact
maps of the results hold. -/
theorem markPathCollisions_no_contacts {Iso Contact Marker Constraints : Type}
    (conv : List Marker → String → ContactMap Contact → List Marker)
    (c_req_default : CollisionRequest) (trajectory : RobotTrajectory Iso)
    (planning_scene : PlanningScene Iso Contact) (path_constraints : Constraints)
    (group_name : String) (M0 : List Marker)
    (hzero : ∀ robot_state ∈ trajectory.waypoints,
      (planning_scene.checkCollision (collisionRequest c_req_default)
        robot_state).contact_count = 0) :
    (markPathCollisions conv c_req_default trajectory planning_scene path_constraints
        group_name M0).markers_out = M0 ∧
    (markPathCollisions conv c_req_default trajectory planning_scene path_constraints
        group_name M0).conversions = [] := by
  rw [markPathCollisions_eq_foldl]
  exact foldl_visitWayPoint_no_contacts conv c_req_default planning_scene
    trajectory.waypoints hzero _

/-- A sweep over three waypoints whose queries all report `contact_count = 0`, one of
them with a non-empty contact map, leaves the marker array as it was. -/
theorem markPathCollisions_no_contacts_witness :
    (markPathCollisions Concrete.appendContactMarkers Concrete.defaultRequest
        Concrete.trajectory3
        (Concrete.sceneWith ⟨false, 0, [(Concrete.wristTable, [101])]⟩) () "arm"
        [("world", 7)]).markers_out = [("world", 7)] ∧
    (markPathCollisions Concrete.appendContactMarkers Concrete.defaultRequest
        Concrete.trajectory3
        (Concrete.sceneWith ⟨false, 0, [(Concrete.wristTable, [101])]⟩) () "arm"
        [("world", 7)]).conversions = [] :=
  markPathCollisions_no_contacts Concrete.appendContactMarkers Concrete.defaultRequest
    Concrete.trajectory3 (Concrete.sceneWith ⟨false, 0, [(Concrete.wristTable, [101])]⟩) ()
    "arm" [("world", 7)] (by
      intro robot_state _
      simp only [Concrete.sceneWith]
      split <;> rfl)

/-- C9, as stated, fails: when the query of the colliding waypoint answers with eleven
contact records for one pair, the sweep hands all eleven to the marker conversion,
more than 10 in total and more than 3 for the pair. -/
theorem markPathCollisions_caps_counterexample :
    (markPathCollisions Concrete.appendContactMarkers Concrete.defaultRequest
        Concrete.trajectory3
        (Concrete.sceneWith ⟨true, 11, [(Concrete.wristTable, List.range 11)]⟩) () "arm"
        []).conversions = [("world", [(Concrete.wristTable, List.range 11)])] ∧
    ContactMap.total [(Concrete.wristTable, List.range 11)] = 11 ∧
    ContactMap.pairCount [(Concrete.wristTable, List.range 11)] Concrete.wristTable = 11 ∧
    ¬ (11 ≤ min 10 11) ∧ ¬ (11 ≤ 3) := by
  rw [markPathCollisions_eq_foldl, foldl_visitWayPoint_conversions]
  refine ⟨rfl, rfl, rfl, by decide, by decide⟩

/-- C9, amended: the sweep hands to the marker conversion, for every waypoint whose
query reports `contact_count > 0`, the contact map that the query returned, as it is.
The request asks for at most 10 contacts and at most 3 per pair, so when the collision
query honours the caps of its request (at most `max_contacts` records and no more than
there are contacts, at most `max_contacts_per_pair` records for a pair), the records
handed over for such a waypoint are at most `min 10 (actual contact count)` in total
and at most 3 for each colliding pair. -/
theorem markPathCollisions_caps {Iso Contact Marker Constraints : Type}
    (conv : List Marker → String → ContactMap Contact → List Marker)
    (c_req_default : CollisionRequest) (trajectory : RobotTrajectory Iso)
    (planning_scene : PlanningScene Iso Contact) (path_constraints : Constraints)
    (group_name : String) (M0 : List Marker) (actual : RobotState Iso → Nat)
    (hcaps : ∀ (c_req : CollisionRequest) (robot_state : RobotState Iso),
      ContactMap.total (planning_scene.checkCollision c_req robot_state).contacts ≤
          min c_req.max_contacts (actual robot_state) ∧
        ∀ pair, ContactMap.pairCount (planning_scene.checkCollision c_req robot_state).contacts
          pair ≤ c_req.max_contacts_per_pair) :
    (markPathCollisions conv c_req_default trajectory planning_scene path_constraints
        group_name M0).conversions =
      ((trajectory.waypoints.map
          (planning_scene.checkCollision (collisionRequest c_req_default))).filter
        (fun c_res => decide (0 < c_res.contact_count))).map
        (fun c_res => (planning_scene.getPlanningFrame, c_res.contacts)) ∧
    (∀ robot_state ∈ trajectory.waypoints,
      0 < (planning_scene.checkCollision (collisionRequest c_req_default)
        robot_state).contact_count →
      (planning_scene.getPlanningFrame,
          (planning_scene.checkCollision (collisionRequest c_req_default)
            robot_state).contacts) ∈
        (markPathCollisions conv c_req_default trajectory planning_scene path_constraints
          group_name M0).conversions ∧
      ContactMap.total (planning_scene.checkCollision (collisionRequest c_req_default)
          robot_state).contacts ≤ min 10 (actual robot_state) ∧
        ∀ pair, ContactMap.pairCount (planning_scene.checkCollision
          (collisionRequest c_req_default) robot_state).contacts pair ≤ 3) ∧
    ∀ call ∈ (markPathCollisions conv c_req_default trajectory planning_scene
        path_constraints group_name M0).conversions,
      ContactMap.total call.2 ≤ 10 ∧ ∀ pair, ContactMap.pairCount call.2 pair ≤ 3 := by
  have hconv := foldl_visitWayPoint_conversions conv c_req_default planning_scene
    trajectory.waypoints { markers_out := M0, queries := [], conversions := [] }
  rw [List.nil_append] at hconv
  rw [markPathCollisions_eq_foldl, hconv]
  refine ⟨rfl, fun robot_state hmem hpos => ⟨?_, hcaps _ robot_state⟩, fun call hcall => ?_⟩
  · exact List.mem_map.2 ⟨_, List.mem_filter.2 ⟨List.mem_map.2 ⟨robot_state, hmem, rfl⟩,
      decide_eq_true hpos⟩, rfl⟩
  · obtain ⟨c_res, hres, rfl⟩ := List.mem_map.1 hcall
    obtain ⟨robot_state, _, rfl⟩ := List.mem_map.1 (List.mem_filter.1 hres).1
    have h := hcaps (collisionRequest c_req_default) robot_state
    exact ⟨le_trans h.1 (min_le_left _ _), h.2⟩

/-- With a collision query that honours the caps, the waypoint with four contacts
between `wrist_link` and the table has three of them handed to the conversion. -/
theorem markPathCollisions_caps_witness :
    (markPathCollisions Concrete.appendContactMarkers Concrete.defaultRequest
        Concrete.trajectory3 Concrete.cappingScene () "arm" []).conversions =
      [("world", [(Concrete.wristTable, [101, 102, 103])])] :=
  (markPathCollisions_caps Concrete.appendContactMarkers Concrete.defaultRequest
    Concrete.trajectory3 Concrete.cappingScene () "arm" [] Concrete.actualContacts (by
      intro c_req robot_state
      simp only [Concrete.cappingScene, Concrete.actualContacts]
      by_cases hw : robot_state.getGlobalLinkTransform Concrete.wrist_link =
        Concrete.translation 0 0 1
      · by_cases hc : c_req.contacts = true
        · simp only [hw, hc, and_self, if_true]
          refine ⟨?_, fun pair => ?_⟩
          · simp [ContactMap.total]
          · by_cases hp : Concrete.wristTable = pair
            · simp [ContactMap.pairCount, hp]
            · simp [ContactMap.pairCount, hp]
        · simp [hw, hc, ContactMap.total, ContactMap.pairCount]
      · simp [hw, ContactMap.total, ContactMap.pairCount])).1

/-! ## The fallback to the tip link -/

/-- The lambda `get_tip` yields a link exactly when the vector of tips holds that
link and nothing else. -/
theorem get_tip_eq_some_iff (jmg : JointModelGroup) (tip : LinkModel) :
    get_tip jmg = some tip ↔ jmg.getEndEffectorTips = [some tip] := by
  obtain ⟨tips⟩ := jmg
  match tips with
  | [] => simp [get_tip]
  | [a] => simp [get_tip]
  | a :: b :: l => simp [get_tip]

/-- The lambda `get_tip` yields the null pointer exactly when the chain does not have
exactly one tip link. -/
theorem get_tip_eq_none_iff (jmg : JointModelGroup) :
    get_tip jmg = none ↔ ¬ ∃ tip, jmg.getEndEffectorTips = [some tip] := by
  constructor
  · rintro h ⟨tip, htip⟩
    rw [(get_tip_eq_some_iff jmg tip).2 htip] at h
    exact Option.noConfusion h
  · intro h
    cases htip : get_tip jmg with
    | none => rfl
    | some tip => exact absurd ⟨tip, (get_tip_eq_some_iff jmg tip).1 htip⟩ h

/-- A chain with no tip or with two or more does not have exactly one tip link. -/
theorem get_tip_eq_none_of_length (jmg : JointModelGroup)
    (h : jmg.getEndEffectorTips.length = 0 ∨ 2 ≤ jmg.getEndEffectorTips.length) :
    get_tip jmg = none := by
  have hne : jmg.getEndEffectorTips.length ≠ 1 := by omega
  simp [get_tip, hne]

/-! ## Further theorems on `getRobotTipForFrame` -/

/-- C12: for every property holding the local pose `P` for which the frame lookup
reports found but yields no link: if the chain has exactly one tip link the call
returns true with `robot_link` that tip link and `tip_in_global_frame` the transform
returned by the lookup composed with `P`, the global transform of the tip link playing
no role; if the chain has 0 or at least 2 tip links the call returns false with the
message `ik_frame doesn't specify a link frame`. -/
theorem getRobotTipForFrame_found_without_link {Pose Iso Contact : Type} [Mul Iso]
    (fromMsg : Pose → Iso) (property : Property Pose) (scene : PlanningScene Iso Contact)
    (jmg : JointModelGroup) (refs : Refs Iso) (F : String) (pose : Pose) (T : Iso)
    (hprop : property.value = .poseStamped ⟨⟨F⟩, pose⟩)
    (hlookup : scene.getCurrentState.getFrameInfo F = ⟨T, none, true⟩) :
    (∀ tip, jmg.getEndEffectorTips = [some tip] →
      getRobotTipForFrame fromMsg property scene jmg refs =
        (.returned true, ⟨"", some tip, T * fromMsg pose⟩)) ∧
    (jmg.getEndEffectorTips.length = 0 ∨ 2 ≤ jmg.getEndEffectorTips.length →
      (getRobotTipForFrame fromMsg property scene jmg refs).1 = .returned false ∧
        (getRobotTipForFrame fromMsg property scene jmg refs).2.error_msg =
          "ik_frame doesn't specify a link frame") := by
  constructor
  · intro tip htips
    have htip := (get_tip_eq_some_iff jmg tip).2 htips
    simp [getRobotTipForFrame, hprop, hlookup, htip]
  · intro hlen
    have htip := get_tip_eq_none_of_length jmg hlen
    simp [getRobotTipForFrame, hprop, hlookup, htip]

/-- The frame `tool0` is found with the transform `(7, 7, 7)` but without a link: with
the single tip `wrist_link`, which sits at `(0, 0, 3)`, the pose at `(1, 0, 0)` resolves
to `wrist_link` and the translation by `(8, 7, 7)`. -/
theorem getRobotTipForFrame_found_without_link_witness :
    getRobotTipForFrame Concrete.fromMsg (Concrete.poseProperty "tool0")
        (Concrete.scene 3 ⟨Concrete.translation 7 7 7, none, true⟩) Concrete.oneTip
        Concrete.refsBefore =
      (.returned true, ⟨"", some Concrete.wrist_link, Concrete.translation 8 7 7⟩) :=
  (getRobotTipForFrame_found_without_link Concrete.fromMsg (Concrete.poseProperty "tool0")
    (Concrete.scene 3 ⟨Concrete.translation 7 7 7, none, true⟩) Concrete.oneTip
    Concrete.refsBefore "tool0" (Concrete.poseAt 1 0 0) (Concrete.translation 7 7 7)
    rfl rfl).1 Concrete.wrist_link rfl

/-- C13: for every property holding the local pose `P` in the empty frame id for which
the frame lookup reports not-found, whenever the call returns true the returned link
is the link of the lookup if that is not null and the single tip link of the chain
otherwise, and the returned transform is the global transform of the returned link
composed with `P`; the transform returned by the lookup does not occur in the
result. -/
theorem getRobotTipForFrame_empty_frame_id_not_found {Pose Iso Contact : Type} [Mul Iso]
    (fromMsg : Pose → Iso) (property : Property Pose) (scene : PlanningScene Iso Contact)
    (jmg : JointModelGroup) (refs : Refs Iso) (pose : Pose)
    (hprop : property.value = .poseStamped ⟨⟨""⟩, pose⟩)
    (hfound : (scene.getCurrentState.getFrameInfo "").found = false)
    (hok : (getRobotTipForFrame fromMsg property scene jmg refs).1 = .returned true) :
    ∃ link : LinkModel,
      ((scene.getCurrentState.getFrameInfo "").robot_link = some link ∨
        ((scene.getCurrentState.getFrameInfo "").robot_link = none ∧
          jmg.getEndEffectorTips = [some link])) ∧
      getRobotTipForFrame fromMsg property scene jmg refs =
        (.returned true,
          ⟨"", some link, scene.getCurrentState.getGlobalLinkTransform link * fromMsg pose⟩) := by
  cases hlink : (scene.getCurrentState.getFrameInfo "").robot_link with
  | some link =>
    exact ⟨link, Or.inl rfl, by simp [getRobotTipForFrame, hprop, hfound, hlink]⟩
  | none =>
    cases htip : get_tip jmg with
    | none => simp [getRobotTipForFrame, hprop, hfound, hlink, htip] at hok
    | some tip =>
      exact ⟨tip, Or.inr ⟨rfl, (get_tip_eq_some_iff jmg tip).1 htip⟩,
        by simp [getRobotTipForFrame, hprop, hfound, hlink, htip]⟩

/-- The lookup of the empty frame id reports not-found, leaves `elbow_link` in its link
output and returns the translation by `(7, 7, 7)`: the pose at `(1, 0, 0)` resolves to
`elbow_link`, which sits at `(0, 3, 0)`, and the translation by `(1, 3, 0)`. -/
theorem getRobotTipForFrame_empty_frame_id_not_found_witness :
    ∃ link : LinkModel,
      (((Concrete.scene 3 ⟨Concrete.translation 7 7 7, some Concrete.elbow_link,
            false⟩).getCurrentState.getFrameInfo "").robot_link = some link ∨
        (((Concrete.scene 3 ⟨Concrete.translation 7 7 7, some Concrete.elbow_link,
            false⟩).getCurrentState.getFrameInfo "").robot_link = none ∧
          Concrete.oneTip.getEndEffectorTips = [some link])) ∧
      getRobotTipForFrame Concrete.fromMsg (Concrete.poseProperty "")
          (Concrete.scene 3 ⟨Concrete.translation 7 7 7, some Concrete.elbow_link, false⟩)
          Concrete.oneTip Concrete.refsBefore =
        (.returned true,
          ⟨"", some link,
            (Concrete.scene 3 ⟨Concrete.translation 7 7 7, some Concrete.elbow_link,
              false⟩).getCurrentState.getGlobalLinkTransform link *
              Concrete.fromMsg (Concrete.poseAt 1 0 0)⟩) :=
  getRobotTipForFrame_empty_frame_id_not_found Concrete.fromMsg (Concrete.poseProperty "")
    (Concrete.scene 3 ⟨Concrete.translation 7 7 7, some Concrete.elbow_link, false⟩)
    Concrete.oneTip Concrete.refsBefore (Concrete.poseAt 1 0 0) rfl rfl rfl

/-- The message of the unknown-frame failure is not empty. -/
theorem unknown_frame_msg_ne_empty (frame_id : String) :
    "ik_frame specified in unknown frame '" ++ frame_id ++ "'" ≠ "" := by
  intro h
  have hlen := congrArg String.length h
  simp only [String.length_append] at hlen
  have hquote : "'".length = 1 := by decide
  have hzero : "".length = 0 := by decide
  omega

/-- C16: for every input, whatever `error_msg` holds before the call: if the call
returns true then the returned `robot_link` is not null and `error_msg` is the empty
string, and if it returns false then `error_msg` is not empty. -/
theorem getRobotTipForFrame_link_and_message {Pose Iso Contact : Type} [Mul Iso]
    (fromMsg : Pose → Iso) (property : Property Pose) (scene : PlanningScene Iso Contact)
    (jmg : JointModelGroup) (refs : Refs Iso) :
    ((getRobotTipForFrame fromMsg property scene jmg refs).1 = .returned true →
      (∃ link, (getRobotTipForFrame fromMsg property scene jmg refs).2.robot_link =
          some link) ∧
        (getRobotTipForFrame fromMsg property scene jmg refs).2.error_msg = "") ∧
    ((getRobotTipForFrame fromMsg property scene jmg refs).1 = .returned false →
      (getRobotTipForFrame fromMsg property scene jmg refs).2.error_msg ≠ "") := by
  obtain ⟨value⟩ := property
  cases value with
  | empty =>
    cases htip : get_tip jmg with
    | none => simp [getRobotTipForFrame, htip]
    | some link => simp [getRobotTipForFrame, htip]
  | otherType => simp [getRobotTipForFrame]
  | poseStamped msg =>
    by_cases hunknown :
        ((!(scene.getCurrentState.getFrameInfo msg.header.frame_id).found &&
          !(msg.header.frame_id == "")) = true)
    · have hmsg := unknown_frame_msg_ne_empty msg.header.frame_id
      simp only [getRobotTipForFrame, hunknown, if_true]
      exact ⟨fun h => by simp at h, fun _ => hmsg⟩
    · simp only [getRobotTipForFrame, hunknown]
      cases hlink : (scene.getCurrentState.getFrameInfo msg.header.frame_id).robot_link with
      | some link => simp [hlink]
      | none =>
        cases htip : get_tip jmg with
        | none => simp [hlink, htip]
        | some link => simp [hlink, htip]

/-- Called with the stale message `stale` in `error_msg`, the successful call on an
empty property with the single tip `wrist_link` returns a link and the empty
message. -/
theorem getRobotTipForFrame_link_and_message_witness :
    (∃ link, (getRobotTipForFrame Concrete.fromMsg ⟨.empty⟩
        (Concrete.scene 3 Concrete.notFound) Concrete.oneTip
        Concrete.refsBefore).2.robot_link = some link) ∧
      (getRobotTipForFrame Concrete.fromMsg ⟨.empty⟩ (Concrete.scene 3 Concrete.notFound)
        Concrete.oneTip Concrete.refsBefore).2.error_msg = "" :=
  (getRobotTipForFrame_link_and_message Concrete.fromMsg ⟨.empty⟩
    (Concrete.scene 3 Concrete.notFound) Concrete.oneTip Concrete.refsBefore).1 rfl

/-- C11: the call returns false if and only if (i) the property is empty and the
chain does not have exactly one tip link, or (ii) the property holds a pose, the frame
lookup reports not-found and the frame id is not empty, or (iii) the property holds a
pose, (ii) does not hold, the lookup yields no link and the chain does not have
exactly one tip link.  The error message is then `missing ik_frame`,
`ik_frame specified in unknown frame 'id'` and `ik_frame doesn't specify a link frame`
respectively.  In every other case, the property being empty or holding a pose, the
call returns true. -/
theorem getRobotTipForFrame_false_iff {Pose Iso Contact : Type} [Mul Iso]
    (fromMsg : Pose → Iso) (property : Property Pose) (scene : PlanningScene Iso Contact)
    (jmg : JointModelGroup) (refs : Refs Iso) :
    ((getRobotTipForFrame fromMsg property scene jmg refs).1 = .returned false ↔
      (property.value = .empty ∧ ¬ ∃ tip, jmg.getEndEffectorTips = [some tip]) ∨
      (∃ msg : PoseStamped Pose, property.value = .poseStamped msg ∧
        (scene.getCurrentState.getFrameInfo msg.header.frame_id).found = false ∧
        msg.header.frame_id ≠ "") ∨
      (∃ msg : PoseStamped Pose, property.value = .poseStamped msg ∧
        ¬ ((scene.getCurrentState.getFrameInfo msg.header.frame_id).found = false ∧
          msg.header.frame_id ≠ "") ∧
        (scene.getCurrentState.getFrameInfo msg.header.frame_id).robot_link = none ∧
        ¬ ∃ tip, jmg.getEndEffectorTips = [some tip])) ∧
    (property.value = .empty → (¬ ∃ tip, jmg.getEndEffectorTips = [some tip]) →
      (getRobotTipForFrame fromMsg property scene jmg refs).2.error_msg =
        "missing ik_frame") ∧
    (∀ msg : PoseStamped Pose, property.value = .poseStamped msg →
      (scene.getCurrentState.getFrameInfo msg.header.frame_id).found = false →
      msg.header.frame_id ≠ "" →
      (getRobotTipForFrame fromMsg property scene jmg refs).2.error_msg =
        "ik_frame specified in unknown frame '" ++ msg.header.frame_id ++ "'") ∧
    (∀ msg : PoseStamped Pose, property.value = .poseStamped msg →
      ¬ ((scene.getCurrentState.getFrameInfo msg.header.frame_id).found = false ∧
        msg.header.frame_id ≠ "") →
      (scene.getCurrentState.getFrameInfo msg.header.frame_id).robot_link = none →
      (¬ ∃ tip, jmg.getEndEffectorTips = [some tip]) →
      (getRobotTipForFrame fromMsg property scene jmg refs).2.error_msg =
        "ik_frame doesn't specify a link frame") ∧
    ((getRobotTipForFrame fromMsg property scene jmg refs).1 = .returned true ↔
      (property.value = .empty ∨ ∃ msg : PoseStamped Pose, property.value = .poseStamped msg) ∧
        (getRobotTipForFrame fromMsg property scene jmg refs).1 ≠ .returned false) := by
  obtain ⟨value⟩ := property
  cases value with
  | empty =>
    cases htip : get_tip jmg with
    | none =>
      have hsingle := (get_tip_eq_none_iff jmg).1 htip
      simp [getRobotTipForFrame, htip, hsingle]
    | some link =>
      have hsingle : ∃ tip, jmg.getEndEffectorTips = [some tip] :=
        ⟨link, (get_tip_eq_some_iff jmg link).1 htip⟩
      simp [getRobotTipForFrame, htip, hsingle]
  | otherType => simp [getRobotTipForFrame]
  | poseStamped msg =>
    by_cases hunknown : (scene.getCurrentState.getFrameInfo msg.header.frame_id).found = false ∧
        msg.header.frame_id ≠ ""
    · simp [getRobotTipForFrame, hunknown.1, hunknown.2]
    · have hguard : ¬ ((!(scene.getCurrentState.getFrameInfo msg.header.frame_id).found &&
          !(msg.header.frame_id == "")) = true) := by
        intro h
        apply hunknown
        simpa using h
      simp only [getRobotTipForFrame, hguard]
      cases hlink : (scene.getCurrentState.getFrameInfo msg.header.frame_id).robot_link with
      | some link =>
        simp [hlink, hunknown]
        exact fun hf hne => absurd ⟨hf, hne⟩ hunknown
      | none =>
        cases htip : get_tip jmg with
        | none =>
          have hsingle := (get_tip_eq_none_iff jmg).1 htip
          simp [hlink, htip, hsingle, hunknown]
          exact ⟨fun hf => by_contra fun hne => hunknown ⟨hf, hne⟩,
            fun hf hne => absurd ⟨hf, hne⟩ hunknown⟩
        | some link =>
          have hsingle : ∃ tip, jmg.getEndEffectorTips = [some tip] :=
            ⟨link, (get_tip_eq_some_iff jmg link).1 htip⟩
          simp [hlink, htip, hsingle, hunknown]
          exact fun hf hne => absurd ⟨hf, hne⟩ hunknown

/-- With the pose in the empty frame id, a lookup that reports not-found without a
link and a chain with two tips, case (iii) holds and the call returns false. -/
theorem getRobotTipForFrame_false_iff_witness :
    (getRobotTipForFrame Concrete.fromMsg (Concrete.poseProperty "")
      (Concrete.scene 3 Concrete.notFound) Concrete.twoTips Concrete.refsBefore).1 =
      .returned false :=
  (getRobotTipForFrame_false_iff Concrete.fromMsg (Concrete.poseProperty "")
    (Concrete.scene 3 Concrete.notFound) Concrete.twoTips Concrete.refsBefore).1.2
    (Or.inr (Or.inr ⟨⟨⟨""⟩, Concrete.poseAt 1 0 0⟩, rfl, fun h => h.2 rfl, rfl,
      fun h => h.elim (fun _ htips => by simp [Concrete.twoTips] at htips)⟩))

/-! ## Further theorems on `markPathCollisions` -/

/-- C14, as stated, fails: in a sweep called with the path constraints `keep upright`
and the group name `arm`, every query is made with a request whose group name is the
empty one of the default-constructed request, and the sweep is the same as the one
called with other path constraints and another group name. -/
theorem markPathCollisions_forwarding_counterexample :
    (markPathCollisions Concrete.appendContactMarkers Concrete.defaultRequest
        Concrete.trajectory3
        (Concrete.sceneWith ⟨true, 2, [(Concrete.wristTable, [101, 102])]⟩) "keep upright"
        "arm" []).queries.map Prod.fst =
      [⟨"", true, 10, 3, true⟩, ⟨"", true, 10, 3, true⟩, ⟨"", true, 10, 3, true⟩] ∧
    ("" : String) ≠ "arm" ∧
    markPathCollisions Concrete.appendContactMarkers Concrete.defaultRequest
        Concrete.trajectory3
        (Concrete.sceneWith ⟨true, 2, [(Concrete.wristTable, [101, 102])]⟩) "keep upright"
        "arm" [] =
      markPathCollisions Concrete.appendContactMarkers Concrete.defaultRequest
        Concrete.trajectory3
        (Concrete.sceneWith ⟨true, 2, [(Concrete.wristTable, [101, 102])]⟩) "no constraint"
        "gripper" [] := by
  simp only [markPathCollisions_eq_foldl]
  refine ⟨?_, by decide, trivial⟩
  rw [foldl_visitWayPoint_queries]
  rfl

/-- C14, amended: the collision query of every waypoint is given the request built at
lines 115-120 and the state of the waypoint, nothing else.  The path constraints and
the group name passed to the sweep are not forwarded: the group name of every request
is the one of the default-constructed request, and the sweep, its queries included,
is the same whatever path constraints and group name are passed. -/
theorem markPathCollisions_ignores_constraints_and_group
    {Iso Contact Marker Constraints : Type}
    (conv : List Marker → String → ContactMap Contact → List Marker)
    (c_req_default : CollisionRequest) (trajectory : RobotTrajectory Iso)
    (planning_scene : PlanningScene Iso Contact) (path_constraints other_constraints : Constraints)
    (group_name other_group : String) (M0 : List Marker) :
    markPathCollisions conv c_req_default trajectory planning_scene path_constraints
        group_name M0 =
      markPathCollisions conv c_req_default trajectory planning_scene other_constraints
        other_group M0 ∧
    (markPathCollisions conv c_req_default trajectory planning_scene path_constraints
        group_name M0).queries =
      trajectory.waypoints.map (fun robot_state => (collisionRequest c_req_default, robot_state)) ∧
    ∀ query ∈ (markPathCollisions conv c_req_default trajectory planning_scene
        path_constraints group_name M0).queries,
      query.1.group_name = c_req_default.group_name := by
  simp only [markPathCollisions_eq_foldl]
  rw [foldl_visitWayPoint_queries]
  refine ⟨trivial, rfl, fun query hquery => ?_⟩
  obtain ⟨robot_state, _, rfl⟩ := List.mem_map.1 hquery
  rfl

/-- C15: for every waypoint of every trajectory the request passed to the collision
query has `contacts = true`, `max_contacts = 10`, `max_contacts_per_pair = 3` and
`verbose = true`; the request is the same for all waypoints, and the same in a scene
whose queries answer differently. -/
theorem markPathCollisions_request {Iso Contact Marker Constraints : Type}
    (conv : List Marker → String → ContactMap Contact → List Marker)
    (c_req_default : CollisionRequest) (trajectory : RobotTrajectory Iso)
    (planning_scene other_scene : PlanningScene Iso Contact) (path_constraints : Constraints)
    (group_name : String) (M0 : List Marker) :
    (∀ query ∈ (markPathCollisions conv c_req_default trajectory planning_scene
        path_constraints group_name M0).queries,
      query.1.contacts = true ∧ query.1.max_contacts = 10 ∧
        query.1.max_contacts_per_pair = 3 ∧ query.1.verbose = true) ∧
    (markPathCollisions conv c_req_default trajectory planning_scene path_constraints
        group_name M0).queries.map Prod.fst =
      List.replicate trajectory.getWayPointCount (collisionRequest c_req_default) ∧
    (markPathCollisions conv c_req_default trajectory planning_scene path_constraints
        group_name M0).queries.map Prod.fst =
      (markPathCollisions conv c_req_default trajectory other_scene path_constraints
        group_name M0).queries.map Prod.fst := by
  simp only [markPathCollisions_eq_foldl, foldl_visitWayPoint_queries]
  refine ⟨fun query hquery => ?_, ?_, trivial⟩
  · rw [List.nil_append] at hquery
    obtain ⟨robot_state, _, rfl⟩ := List.mem_map.1 hquery
    exact ⟨rfl, rfl, rfl, rfl⟩
  · simp [RobotTrajectory.getWayPointCount, Function.comp_def, List.map_const']

end Utils
